import Mathlib

/-!
Shallow embedding of `nba_shotchart.py`: the data-fetch wrapper
`get_player_shotchartdetail`, the court renderer `draw_court`, and the shot
plotter `plot_shot_chart`, together with theorems checking the repository's
specification against this embedding.

Matplotlib objects are modelled by explicit inductive/structure types:
a `Patch` is a `Circle`, `Rectangle` or `Arc` with the constructor arguments
the source passes (for `Arc`, width/height are diameters, as in matplotlib);
an `Axes` records the limits, title, tick-label flags, the list of added
patches and the list of scatter series.  Pandas dataframe reads
(`data.loc[mask, col]`) become filter-then-map over a list of records.
-/

namespace NbaShotchart

/-- One shot record of the shot-chart dataframe: the columns the program
reads (`EVENT_TYPE`, `LOC_X`, `LOC_Y`). -/
structure ShotEvent where
  event_type : String
  loc_x : Int
  loc_y : Int
deriving Repr, DecidableEq

/-- A matplotlib patch as constructed by `draw_court`: the constructor
arguments the source passes.  `Rectangle` without an explicit `fill=False`
is filled (matplotlib default), hence the `fill` flag. For `Arc`, `width`
and `height` are the full diameters and `theta1`/`theta2` are in degrees,
exactly as matplotlib takes them. -/
inductive Patch where
  | circle (center : ℚ × ℚ) (radius : ℚ) (linewidth : ℚ) (color : String) (fill : Bool)
  | rectangle (corner : ℚ × ℚ) (width : ℚ) (height : ℚ) (linewidth : ℚ) (color : String) (fill : Bool)
  | arc (center : ℚ × ℚ) (width : ℚ) (height : ℚ) (theta1 : ℚ) (theta2 : ℚ) (linewidth : ℚ) (color : String)
deriving Repr, DecidableEq

/-- The stroke color of a patch. -/
def Patch.color : Patch → String
  | .circle _ _ _ c _ => c
  | .rectangle _ _ _ _ c _ => c
  | .arc _ _ _ _ _ _ c => c

/-- One `ax.scatter(xs, ys, ...)` call: the data columns and the style
keywords the source passes (absent keywords are `none`). -/
structure ScatterSeries where
  xs : List Int
  ys : List Int
  c : Option String
  edgecolors : Option String
  facecolors : Option String
  marker : String
  s : ℚ
  linewidths : ℚ
  label : String
deriving Repr, DecidableEq

/-- The drawing surface (a matplotlib `Axes`): the state the program reads
and mutates. Tick labels default to shown (`true`), limits to unset. -/
structure Axes where
  xlim : Option (ℚ × ℚ)
  ylim : Option (ℚ × ℚ)
  title : String
  title_fontsize : ℚ
  labelbottom : Bool
  labelleft : Bool
  patches : List Patch
  scatters : List ScatterSeries
  legend : Bool
deriving Repr, DecidableEq

/-- A fresh surface, before any drawing call. -/
def Axes.empty : Axes :=
  { xlim := none, ylim := none, title := "", title_fontsize := 0,
    labelbottom := true, labelleft := true, patches := [], scatters := [],
    legend := false }

/-- Models `ax.add_patch(p)`. -/
def Axes.add_patch (ax : Axes) (p : Patch) : Axes :=
  { ax with patches := ax.patches ++ [p] }

/-- Models `ax.scatter(xs, ys, ...)`: appends one series to the surface. -/
def Axes.scatter (ax : Axes) (xs ys : List Int) (c edgecolors facecolors : Option String)
    (marker : String) (s linewidths : ℚ) (label : String) : Axes :=
  { ax with scatters := ax.scatters ++
      [{ xs := xs, ys := ys, c := c, edgecolors := edgecolors,
         facecolors := facecolors, marker := marker, s := s,
         linewidths := linewidths, label := label }] }

/-- The `court_elements` list of `draw_court` (`src/nba_shotchart.py`
lines 54-67): twelve patches with the literal coordinates of the source. -/
def court_elements (color : String) (lw : ℚ) : List Patch :=
  [ .circle (0, 0) 7.5 lw color false,
    .rectangle (-30, -12.5) 60 0 lw color true,
    .rectangle (-80, -47.5) 160 190 lw color false,
    .rectangle (-60, -47.5) 120 190 lw color false,
    .arc (0, 142.5) 120 120 0 180 lw color,
    .arc (0, 142.5) 120 120 180 0 lw color,
    .arc (0, 0) 80 80 0 180 lw color,
    .rectangle (-220, -47.5) 0 140 lw color true,
    .rectangle (220, -47.5) 0 140 lw color true,
    .arc (0, 0) 475 475 22 158 lw color,
    .arc (0, 422.5) 120 120 180 0 lw color,
    .arc (0, 422.5) 40 40 180 0 lw color ]

/-- The optional full-court boundary rectangle appended when
`outer_lines` is true (line 70). -/
def outer_lines_rect (color : String) (lw : ℚ) : Patch :=
  .rectangle (-250, -47.5) 500 470 lw color false

/-- Embeds `draw_court(ax, color, lw, outer_lines)` (lines 46-73): builds the
element list, optionally appends the boundary, and adds each element to the
surface.  The `ax=None -> plt.gca()` default is modelled by always passing
the surface explicitly. -/
def draw_court (ax : Axes) (color : String) (lw : ℚ) (outer_lines : Bool) : Axes :=
  let ce := court_elements color lw
  let ce := if outer_lines then ce ++ [outer_lines_rect color lw] else ce
  ce.foldl Axes.add_patch ax

/-- Models `data.loc[mask, col]`: a pandas boolean-mask column read,
i.e. filter the rows then project the column. -/
def df_loc (data : List ShotEvent) (pred : ShotEvent → Bool) (col : ShotEvent → Int) : List Int :=
  (data.filter pred).map col

/-- The mutable state a `plot_shot_chart` call touches: the shot dataframe
it was handed and the drawing surface. -/
structure RenderState where
  data : List ShotEvent
  ax : Axes
deriving Repr, DecidableEq

set_option linter.unusedVariables false in
/-- Embeds `plot_shot_chart(data, title, ax, court_color, court_lw, line_color)`
(lines 76-99): configures the axis, draws the court with `line_color` and
`court_lw` (and `outer_lines` left at its default `False`), scatters the
missed then the made shots, and turns the legend on.  `court_color` is a
parameter of the source function that its body never uses. -/
def plot_shot_chart (st : RenderState) (title : String) (court_color : String)
    (court_lw : ℚ) (line_color : String) : RenderState :=
  let ax := st.ax
  let ax := { ax with xlim := some (-250, 250), ylim := some (422.5, -47.5),
                      title := title, title_fontsize := 18,
                      labelbottom := false, labelleft := false }
  let ax := draw_court ax line_color court_lw false
  let data := st.data
  let ax := ax.scatter
      (df_loc data (fun r => r.event_type == "Missed Shot") ShotEvent.loc_x)
      (df_loc data (fun r => r.event_type == "Missed Shot") ShotEvent.loc_y)
      (some "r") none none "x" 100 1 "Missed"
  let ax := ax.scatter
      (df_loc data (fun r => r.event_type == "Made Shot") ShotEvent.loc_x)
      (df_loc data (fun r => r.event_type == "Made Shot") ShotEvent.loc_y)
      none (some "g") (some "none") "o" 100 1 "Made"
  let ax := { ax with legend := true }
  { st with ax := ax }

/-! ## Stats retriever (`get_player_shotchartdetail`) -/

/-- One entry of the provider's player directory (`players.get_players()`):
the fields the program reads. -/
structure Player where
  id : Nat
  full_name : String
deriving Repr, DecidableEq

/-- One row of the career dataframe (`PlayerCareerStats` frame 0): the
columns the program reads. -/
structure CareerRow where
  season_id : String
  team_id : Nat
deriving Repr, DecidableEq

/-- One provider lookup issued by `get_player_shotchartdetail`, with the
arguments the source passes. -/
inductive Request where
  | getPlayers
  | playerCareerStats (player_id : Nat)
  | shotChartDetail (team_id : Nat) (player_id : Nat)
      (season_type_all_star : String) (season_nullable : String)
      (context_measure_simple : String)
deriving Repr, DecidableEq

/-- The python exceptions the function can raise, with their messages:
the explicit `ValueError` of line 27, and `IndexError` as raised by
`.iloc[0]` on an empty selection (pandas) or by indexing a too-short
list of dataframes. -/
inductive FetchError where
  | valueError (msg : String)
  | indexError (msg : String)
deriving Repr, DecidableEq

/-- The external provider, abstracted: the player directory, the career
dataframe per player id, and the list of dataframes the shot-chart
endpoint returns (their row type `F` is opaque to the fetch logic). -/
structure Env (F : Type) where
  players : List Player
  career : Nat → List CareerRow
  shotchart : Nat → Nat → String → String → String → List F

/-- Models `series.iloc[0]`: the first element, or the pandas
`IndexError` on an empty selection. -/
def series_iloc0 (l : List Nat) : Except FetchError Nat :=
  match l with
  | [] => .error (.indexError "single positional indexer is out-of-bounds")
  | x :: _ => .ok x

/-- Embeds `get_player_shotchartdetail(player_name, season_id)`
(lines 12-43) over an abstract provider `env`, returning the result
(the first two shot-chart dataframes, or the exception raised) together
with the list of provider lookups performed, in order. -/
def get_player_shotchartdetail {F : Type} (env : Env F)
    (player_name season_id : String) :
    Except FetchError (F × F) × List Request :=
  let log := [Request.getPlayers]
  let nba_players := env.players
  match nba_players.find? (fun p => p.full_name == player_name) with
  | none =>
    (.error (.valueError ("Player '" ++ player_name ++ "' not found.")), log)
  | some player =>
    let log := log ++ [Request.playerCareerStats player.id]
    let career_df := env.career player.id
    match series_iloc0
        (((career_df.filter (fun r => r.season_id == season_id)).map CareerRow.team_id)) with
    | .error e => (.error e, log)
    | .ok team_id =>
      let log := log ++ [Request.shotChartDetail team_id player.id
        "Regular Season" season_id "FGA"]
      match env.shotchart team_id player.id "Regular Season" season_id "FGA" with
      | f0 :: f1 :: _ => (.ok (f0, f1), log)
      | _ => (.error (.indexError "list index out of range"), log)

/-! ## Helper lemmas -/

/-- Adding a list of patches one by one appends it to the surface's patch
list and changes nothing else. -/
theorem foldl_add_patch (l : List Patch) (ax : Axes) :
    l.foldl Axes.add_patch ax = { ax with patches := ax.patches ++ l } := by
  induction l generalizing ax with
  | nil => simp
  | cons p t ih => simp [Axes.add_patch, ih]

/-- Unfolding of `draw_court`: the surface with the element list (boundary
included when `outer_lines` is set) appended to its patches. -/
theorem draw_court_eq (ax : Axes) (color : String) (lw : ℚ) (outer_lines : Bool) :
    draw_court ax color lw outer_lines =
      { ax with patches := ax.patches ++
          (if outer_lines then court_elements color lw ++ [outer_lines_rect color lw]
           else court_elements color lw) } := by
  cases outer_lines <;> simp [draw_court, foldl_add_patch, Axes.add_patch]

/-! ## Claim theorems -/

/-- C2 (counterexample): on a fresh surface, `draw_court` with
`outer_lines = false` does not add 11 primitives (it adds 12). -/
theorem draw_court_false_count_ne_eleven :
    (draw_court Axes.empty "blue" 1 false).patches.length ≠ 11 := by
  simp [draw_court_eq, Axes.empty, court_elements]

/-- C2 (amended): `draw_court` with `outer_lines = false` adds exactly 12
primitives to the surface, and with `outer_lines = true` exactly 13. -/
theorem draw_court_patch_counts (ax : Axes) (color : String) (lw : ℚ) :
    (draw_court ax color lw false).patches.length = ax.patches.length + 12 ∧
    (draw_court ax color lw true).patches.length = ax.patches.length + 13 := by
  simp [draw_court_eq, court_elements]

/-- The §4.2 primitive catalogue of the specification, transcribed from
its words rather than from the source: circular arcs carry their radius
(written as the half of a `2 * r` diameter, since `Patch.arc` stores
matplotlib diameters); the backboard is a solid width-60 horizontal
segment centered at (0, -12.5), so its corner sits at (0 - 60 / 2, -12.5);
the corner-three markers are solid vertical segments at x = ±220 running
from y = -47.5 up to y = 92.5; boxes, circles and arcs are unfilled
outlines. Row order follows the spec's table. -/
def spec_court_catalogue (color : String) (lw : ℚ) : List Patch :=
  [ .circle (0, 0) 7.5 lw color false,
    .rectangle (0 - 60 / 2, -12.5) 60 0 lw color true,
    .rectangle (-80, -47.5) 160 190 lw color false,
    .rectangle (-60, -47.5) 120 190 lw color false,
    .arc (0, 142.5) (2 * 60) (2 * 60) 0 180 lw color,
    .arc (0, 142.5) (2 * 60) (2 * 60) 180 0 lw color,
    .arc (0, 0) (2 * 40) (2 * 40) 0 180 lw color,
    .rectangle (-220, -47.5) 0 (92.5 - (-47.5)) lw color true,
    .rectangle (220, -47.5) 0 (92.5 - (-47.5)) lw color true,
    .arc (0, 0) (2 * 237.5) (2 * 237.5) 22 158 lw color,
    .arc (0, 422.5) (2 * 60) (2 * 60) 180 0 lw color,
    .arc (0, 422.5) (2 * 20) (2 * 20) 180 0 lw color ]

/-- The optional outer-boundary row of the §4.2 catalogue, transcribed
from the spec's words: an unfilled rectangle with corner (-250, -47.5),
width 500, height 470. -/
def spec_outer_boundary (color : String) (lw : ℚ) : Patch :=
  .rectangle (-250, -47.5) 500 470 lw color false

/-- C3: every primitive `draw_court` produces has exactly the geometry of
the §4.2 catalogue: the source's element list coincides primitive by
primitive with the catalogue transcribed from the spec (hoop circle at
(0,0) of radius 7.5; three-point arc at (0,0) of radius 237.5 spanning
22° to 158°; free-throw and center-court outer circles of radius 60;
restricted-area arc of radius 40; corner-three vertical segments at
x = ±220 from y = -47.5 to y = 92.5; backboard, paint boxes and
center-circle inner arc likewise), the optional boundary matches the
catalogue's optional row, and the patches `draw_court` adds to a fresh
surface are exactly that catalogue, for either boundary flag. -/
theorem court_elements_geometry (color : String) (lw : ℚ) :
    court_elements color lw = spec_court_catalogue color lw ∧
    outer_lines_rect color lw = spec_outer_boundary color lw ∧
    (draw_court Axes.empty color lw false).patches = spec_court_catalogue color lw ∧
    (draw_court Axes.empty color lw true).patches =
      spec_court_catalogue color lw ++ [spec_outer_boundary color lw] := by
  refine ⟨?_, ?_, ?_, ?_⟩ <;>
    norm_num [court_elements, spec_court_catalogue, outer_lines_rect,
      spec_outer_boundary, draw_court_eq, Axes.empty]

/-- C5: after `plot_shot_chart`, whatever the shot data, the x-extent is
exactly (-250, 250) and the y-extent exactly (422.5, -47.5), in that
inverted order. -/
theorem plot_shot_chart_fixed_extents (st : RenderState)
    (title court_color : String) (court_lw : ℚ) (line_color : String) :
    (plot_shot_chart st title court_color court_lw line_color).ax.xlim =
      some (-250, 250) ∧
    (plot_shot_chart st title court_color court_lw line_color).ax.ylim =
      some (422.5, -47.5) := by
  simp [plot_shot_chart, draw_court_eq, Axes.scatter]

/-- C8: court rendering is deterministic and input-independent: the block
of patches `draw_court` appends is the same for any two surfaces (whatever
shot data or other content they already hold), and scattering shot data
afterward never changes the patch set. -/
theorem draw_court_deterministic (color : String) (lw : ℚ) (outer_lines : Bool)
    (ax1 ax2 : Axes) :
    ((draw_court ax1 color lw outer_lines).patches.drop ax1.patches.length =
      (draw_court ax2 color lw outer_lines).patches.drop ax2.patches.length) ∧
    (∀ (ax : Axes) (xs ys : List Int) (c e f : Option String) (m : String)
      (sz lws : ℚ) (lbl : String),
      (ax.scatter xs ys c e f m sz lws lbl).patches = ax.patches) := by
  constructor
  · simp [draw_court_eq]
  · intro ax xs ys c e f m sz lws lbl
    rfl

/-- C9: `plot_shot_chart` never mutates the shot collection it is given:
the records are identical before and after the render call; only the
drawing surface changes. -/
theorem plot_shot_chart_preserves_data (st : RenderState)
    (title court_color : String) (court_lw : ℚ) (line_color : String) :
    (plot_shot_chart st title court_color court_lw line_color).data = st.data := by
  rfl

/-- C1: `plot_shot_chart` appends exactly two series — the "Missed" series
built from the records whose outcome is `Missed Shot` and the "Made" series
built from those whose outcome is `Made Shot` — and a record of the input
collection is selected into the Missed series exactly when its outcome is
`Missed Shot`, into the Made series exactly when it is `Made Shot` (so any
other outcome lands in neither), and never into both. -/
theorem plot_shot_chart_classification (st : RenderState)
    (title court_color : String) (court_lw : ℚ) (line_color : String)
    (s : ShotEvent) (hs : s ∈ st.data) :
    ((plot_shot_chart st title court_color court_lw line_color).ax.scatters =
      st.ax.scatters ++
        [{ xs := (st.data.filter (fun r => r.event_type == "Missed Shot")).map ShotEvent.loc_x,
           ys := (st.data.filter (fun r => r.event_type == "Missed Shot")).map ShotEvent.loc_y,
           c := some "r", edgecolors := none, facecolors := none,
           marker := "x", s := 100, linewidths := 1, label := "Missed" },
         { xs := (st.data.filter (fun r => r.event_type == "Made Shot")).map ShotEvent.loc_x,
           ys := (st.data.filter (fun r => r.event_type == "Made Shot")).map ShotEvent.loc_y,
           c := none, edgecolors := some "g", facecolors := some "none",
           marker := "o", s := 100, linewidths := 1, label := "Made" }]) ∧
    (s ∈ st.data.filter (fun r => r.event_type == "Missed Shot") ↔
      s.event_type = "Missed Shot") ∧
    (s ∈ st.data.filter (fun r => r.event_type == "Made Shot") ↔
      s.event_type = "Made Shot") ∧
    ¬(s ∈ st.data.filter (fun r => r.event_type == "Missed Shot") ∧
      s ∈ st.data.filter (fun r => r.event_type == "Made Shot")) := by
  refine ⟨?_, ?_, ?_, ?_⟩
  · simp [plot_shot_chart, draw_court_eq, Axes.scatter, df_loc]
  · simp [List.mem_filter, hs]
  · simp [List.mem_filter, hs]
  · rintro ⟨h1, h2⟩
    rw [List.mem_filter] at h1 h2
    have e1 : s.event_type = "Missed Shot" := by simpa using h1.2
    have e2 : s.event_type = "Made Shot" := by simpa using h2.2
    rw [e1] at e2
    exact absurd e2 (by decide)

/-- C1 (witness): the three-record collection of spec §8.4 — one made at
(0,100), one missed at (-50,50), one with outcome "Unknown" at (10,10) —
instantiated at the missed record. -/
theorem plot_shot_chart_classification_witness :
    ((plot_shot_chart
        { data := [{ event_type := "Made Shot", loc_x := 0, loc_y := 100 },
                   { event_type := "Missed Shot", loc_x := -50, loc_y := 50 },
                   { event_type := "Unknown", loc_x := 10, loc_y := 10 }],
          ax := Axes.empty } "t" "white" 2 "blue").ax.scatters =
      Axes.empty.scatters ++
        [{ xs := ([{ event_type := "Made Shot", loc_x := 0, loc_y := 100 },
                   { event_type := "Missed Shot", loc_x := -50, loc_y := 50 },
                   { event_type := "Unknown", loc_x := 10, loc_y := 10 }].filter
                    (fun r => r.event_type == "Missed Shot")).map ShotEvent.loc_x,
           ys := ([{ event_type := "Made Shot", loc_x := 0, loc_y := 100 },
                   { event_type := "Missed Shot", loc_x := -50, loc_y := 50 },
                   { event_type := "Unknown", loc_x := 10, loc_y := 10 }].filter
                    (fun r => r.event_type == "Missed Shot")).map ShotEvent.loc_y,
           c := some "r", edgecolors := none, facecolors := none,
           marker := "x", s := 100, linewidths := 1, label := "Missed" },
         { xs := ([{ event_type := "Made Shot", loc_x := 0, loc_y := 100 },
                   { event_type := "Missed Shot", loc_x := -50, loc_y := 50 },
                   { event_type := "Unknown", loc_x := 10, loc_y := 10 }].filter
                    (fun r => r.event_type == "Made Shot")).map ShotEvent.loc_x,
           ys := ([{ event_type := "Made Shot", loc_x := 0, loc_y := 100 },
                   { event_type := "Missed Shot", loc_x := -50, loc_y := 50 },
                   { event_type := "Unknown", loc_x := 10, loc_y := 10 }].filter
                    (fun r => r.event_type == "Made Shot")).map ShotEvent.loc_y,
           c := none, edgecolors := some "g", facecolors := some "none",
           marker := "o", s := 100, linewidths := 1, label := "Made" }]) ∧
    ({ event_type := "Missed Shot", loc_x := -50, loc_y := 50 : ShotEvent } ∈
      [{ event_type := "Made Shot", loc_x := 0, loc_y := 100 },
       { event_type := "Missed Shot", loc_x := -50, loc_y := 50 },
       { event_type := "Unknown", loc_x := 10, loc_y := 10 : ShotEvent }].filter
        (fun r => r.event_type == "Missed Shot") ↔
      ({ event_type := "Missed Shot", loc_x := -50, loc_y := 50 : ShotEvent }).event_type =
        "Missed Shot") ∧
    ({ event_type := "Missed Shot", loc_x := -50, loc_y := 50 : ShotEvent } ∈
      [{ event_type := "Made Shot", loc_x := 0, loc_y := 100 },
       { event_type := "Missed Shot", loc_x := -50, loc_y := 50 },
       { event_type := "Unknown", loc_x := 10, loc_y := 10 : ShotEvent }].filter
        (fun r => r.event_type == "Made Shot") ↔
      ({ event_type := "Missed Shot", loc_x := -50, loc_y := 50 : ShotEvent }).event_type =
        "Made Shot") ∧
    ¬({ event_type := "Missed Shot", loc_x := -50, loc_y := 50 : ShotEvent } ∈
      [{ event_type := "Made Shot", loc_x := 0, loc_y := 100 },
       { event_type := "Missed Shot", loc_x := -50, loc_y := 50 },
       { event_type := "Unknown", loc_x := 10, loc_y := 10 : ShotEvent }].filter
        (fun r => r.event_type == "Missed Shot") ∧
      { event_type := "Missed Shot", loc_x := -50, loc_y := 50 : ShotEvent } ∈
      [{ event_type := "Made Shot", loc_x := 0, loc_y := 100 },
       { event_type := "Missed Shot", loc_x := -50, loc_y := 50 },
       { event_type := "Unknown", loc_x := 10, loc_y := 10 : ShotEvent }].filter
        (fun r => r.event_type == "Made Shot")) :=
  plot_shot_chart_classification
    { data := [{ event_type := "Made Shot", loc_x := 0, loc_y := 100 },
               { event_type := "Missed Shot", loc_x := -50, loc_y := 50 },
               { event_type := "Unknown", loc_x := 10, loc_y := 10 }],
      ax := Axes.empty } "t" "white" 2 "blue"
    { event_type := "Missed Shot", loc_x := -50, loc_y := 50 } (by decide)

/-- C4 (counterexample): with `court_color = "white"` and
`line_color = "blue"`, every court primitive `plot_shot_chart` draws has
stroke color "blue" — the `line_color` argument, not the `court_color`
argument, is what reaches the court renderer. -/
theorem plot_shot_chart_court_color_not_used :
    ((plot_shot_chart { data := [], ax := Axes.empty } "" "white" 2 "blue").ax.patches.map
        Patch.color = List.replicate 12 "blue") ∧
    ("white" : String) ≠ "blue" := by
  constructor
  · simp [plot_shot_chart, draw_court_eq, Axes.scatter, Axes.empty,
      court_elements, Patch.color, List.replicate]
  · decide

/-- C4 (amended): `plot_shot_chart` invokes the court renderer with the
`line_color` argument as stroke color, the `court_lw` argument as line
width, and the outer boundary off (the patches added are exactly the
12-element catalogue, no boundary rectangle); the `court_color` argument
has no effect on the result at all. -/
theorem plot_shot_chart_court_call (st : RenderState)
    (title court_color court_color2 : String) (court_lw : ℚ) (line_color : String) :
    (plot_shot_chart st title court_color court_lw line_color).ax.patches =
      st.ax.patches ++ court_elements line_color court_lw ∧
    plot_shot_chart st title court_color court_lw line_color =
      plot_shot_chart st title court_color2 court_lw line_color := by
  constructor
  · simp [plot_shot_chart, draw_court_eq, Axes.scatter]
  · rfl

/-- C6: when no entry of the provider's player directory matches the
requested name (string equality is case-sensitive), the fetch stops with
the `ValueError` of line 27 ("Player ... not found.", the spec's
`PlayerNotFound`), and the directory lookup is the only request issued —
neither the career-history lookup nor the shot-data query happens. -/
theorem fetch_player_not_found {F : Type} (env : Env F)
    (player_name season_id : String)
    (h : ∀ p ∈ env.players, p.full_name ≠ player_name) :
    get_player_shotchartdetail env player_name season_id =
      (.error (.valueError ("Player '" ++ player_name ++ "' not found.")),
       [Request.getPlayers]) := by
  have hfind : env.players.find? (fun p => p.full_name == player_name) = none := by
    rw [List.find?_eq_none]
    intro p hp
    simp [h p hp]
  simp [get_player_shotchartdetail, hfind]

/-- C6 (witness): a directory holding only "Zach Edey", queried for
"Nonexistent Player". -/
theorem fetch_player_not_found_witness :
    get_player_shotchartdetail
        ({ players := [{ id := 1, full_name := "Zach Edey" }],
           career := fun _ => [],
           shotchart := fun _ _ _ _ _ => [] } : Env Nat)
        "Nonexistent Player" "2024-25" =
      (.error (.valueError ("Player '" ++ "Nonexistent Player" ++ "' not found.")),
       [Request.getPlayers]) :=
  fetch_player_not_found _ "Nonexistent Player" "2024-25" (by decide)

/-- C7: when the directory lookup finds the player but the career
dataframe has no row whose SEASON_ID equals the requested season, the
fetch fails — with the pandas `IndexError` that `.iloc[0]` raises on the
empty selection (the failure mode the spec's taxonomy calls
`SeasonNotFound`), not with `PlayerNotFound` and not with a successful
return — after issuing only the directory and career-history lookups. -/
theorem fetch_season_not_found {F : Type} (env : Env F)
    (player_name season_id : String) (p : Player)
    (hp : env.players.find? (fun q => q.full_name == player_name) = some p)
    (hs : ∀ r ∈ env.career p.id, r.season_id ≠ season_id) :
    get_player_shotchartdetail env player_name season_id =
      (.error (.indexError "single positional indexer is out-of-bounds"),
       [Request.getPlayers, Request.playerCareerStats p.id]) := by
  have hfilter : (env.career p.id).filter (fun r => r.season_id == season_id) = [] := by
    rw [List.filter_eq_nil_iff]
    intro r hr
    simp [hs r hr]
  simp [get_player_shotchartdetail, hp, hfilter, series_iloc0]

/-- C7 (witness): "Zach Edey" exists with a single 2023-24 career row;
the 2024-25 query fails with the empty-selection IndexError after the two
lookups. -/
theorem fetch_season_not_found_witness :
    get_player_shotchartdetail
        ({ players := [{ id := 1, full_name := "Zach Edey" }],
           career := fun _ => [{ season_id := "2023-24", team_id := 5 }],
           shotchart := fun _ _ _ _ _ => [] } : Env Nat)
        "Zach Edey" "2024-25" =
      (.error (.indexError "single positional indexer is out-of-bounds"),
       [Request.getPlayers, Request.playerCareerStats 1]) :=
  fetch_season_not_found _ "Zach Edey" "2024-25"
    { id := 1, full_name := "Zach Edey" } (by decide) (by decide)

/-- C10: when the career dataframe holds several rows for the requested
season, the shot-data query is issued with the TEAM_ID of the first
matching row, and the rows after it never influence the result (the
conclusion holds for every `post`). -/
theorem fetch_uses_first_matching_season {F : Type} (env : Env F)
    (player_name season_id : String) (p : Player)
    (pre post : List CareerRow) (row : CareerRow) (f0 f1 : F) (rest : List F)
    (hp : env.players.find? (fun q => q.full_name == player_name) = some p)
    (hcar : env.career p.id = pre ++ row :: post)
    (hpre : ∀ r ∈ pre, r.season_id ≠ season_id)
    (hrow : row.season_id = season_id)
    (hframes : env.shotchart row.team_id p.id "Regular Season" season_id "FGA" =
      f0 :: f1 :: rest) :
    get_player_shotchartdetail env player_name season_id =
      (.ok (f0, f1),
       [Request.getPlayers, Request.playerCareerStats p.id,
        Request.shotChartDetail row.team_id p.id "Regular Season" season_id "FGA"]) := by
  have hnil : pre.filter (fun r => r.season_id == season_id) = [] := by
    rw [List.filter_eq_nil_iff]
    intro r hr
    simp [hpre r hr]
  have hfilter : (env.career p.id).filter (fun r => r.season_id == season_id) =
      row :: post.filter (fun r => r.season_id == season_id) := by
    rw [hcar, List.filter_append, hnil]
    simp [hrow]
  simp [get_player_shotchartdetail, hp, hfilter, series_iloc0, hframes]

/-- C10 (witness): a career with a 2023-24 row and two 2024-25 rows
(team 20 then team 30): the shot query goes out with team 20 and the
returned first two frames are the result. -/
theorem fetch_uses_first_matching_season_witness :
    get_player_shotchartdetail
        ({ players := [{ id := 23, full_name := "LeBron James" }],
           career := fun _ => [{ season_id := "2023-24", team_id := 10 },
                               { season_id := "2024-25", team_id := 20 },
                               { season_id := "2024-25", team_id := 30 }],
           shotchart := fun _ _ _ _ _ => [7, 8, 9] } : Env Nat)
        "LeBron James" "2024-25" =
      (.ok (7, 8),
       [Request.getPlayers, Request.playerCareerStats 23,
        Request.shotChartDetail 20 23 "Regular Season" "2024-25" "FGA"]) :=
  fetch_uses_first_matching_season _ "LeBron James" "2024-25"
    { id := 23, full_name := "LeBron James" }
    [{ season_id := "2023-24", team_id := 10 }]
    [{ season_id := "2024-25", team_id := 30 }]
    { season_id := "2024-25", team_id := 20 } 7 8 [9]
    (by decide) rfl (by decide) rfl rfl

end NbaShotchart
